import Mathlib

/-!
Verification development for the PySyft client API core
(`packages/syft/src/syft/client/api.py`): the signed RPC call envelope,
argument validation against endpoint signatures, the remote-function call
pipeline, and the proxy module tree.

Python runtime values relevant to the validated call surface are embedded as
a closed universe `SyftVal` (ints, strings, bools, None); declared parameter
types as `PyType` / `Ann` (a concrete type, an absent annotation, or a
`typing.Union`/`Optional` alias).  Python dicts appear as ordered association
lists, mirroring insertion-ordered `dict` semantics.
-/

set_option autoImplicit false

namespace SyftSpec

/-- Closed universe of Python runtime values passed through the call
validation pipeline. -/
inductive SyftVal where
  | vInt (n : Int)
  | vStr (s : String)
  | vBool (b : Bool)
  | vNone
  deriving DecidableEq, Repr

/-- Concrete Python types that occur as leaves of declared parameter
annotations. -/
inductive PyType where
  | int
  | str
  | bool
  | noneType
  deriving DecidableEq, Repr

/-- Parameter type declaration: absent (`inspect.Parameter.empty`), a concrete
type, or a `typing` union alias (`_GenericAlias`), whose member list mirrors
`t.__args__` (for `Optional[X]` CPython produces `(X, NoneType)`). -/
inductive Ann where
  | empty
  | ty (t : PyType)
  | union (ts : List PyType)
  deriving DecidableEq, Repr

/-- Python `type(value).__name__`. -/
def pyClassName : SyftVal → String
  | SyftVal.vInt _ => "int"
  | SyftVal.vStr _ => "str"
  | SyftVal.vBool _ => "bool"
  | SyftVal.vNone => "NoneType"

/-- Python `str(value)` for the embedded universe. -/
def pyStr : SyftVal → String
  | SyftVal.vInt n => toString n
  | SyftVal.vStr s => s
  | SyftVal.vBool true => "True"
  | SyftVal.vBool false => "False"
  | SyftVal.vNone => "None"

/-- Python `bool(value)` truthiness. -/
def pyBool : SyftVal → Bool
  | SyftVal.vInt n => n != 0
  | SyftVal.vStr s => s ≠ ""
  | SyftVal.vBool b => b
  | SyftVal.vNone => false

/-- `t.__name__` for a concrete type. -/
def pyTypeName : PyType → String
  | PyType.int => "int"
  | PyType.str => "str"
  | PyType.bool => "bool"
  | PyType.noneType => "NoneType"

/-- `typeguard.check_type` success on a concrete leaf type: `isinstance`
semantics, under which Python's `bool` is a subclass of `int`. -/
def checkType (v : SyftVal) : PyType → Bool
  | PyType.int =>
    match v with
    | SyftVal.vInt _ => true
    | SyftVal.vBool _ => true
    | _ => false
  | PyType.str =>
    match v with
    | SyftVal.vStr _ => true
    | _ => false
  | PyType.bool =>
    match v with
    | SyftVal.vBool _ => true
    | _ => false
  | PyType.noneType =>
    match v with
    | SyftVal.vNone => true
    | _ => false

/-- `getattr(t, "__name__", str(t))` on an annotation: concrete types render
their `__name__`; `typing` aliases have no `__name__` and render via CPython
`str()`, which prints a two-member union with `NoneType` as `Optional`. -/
def annStr : Ann → String
  | Ann.empty => "<empty>"
  | Ann.ty t => pyTypeName t
  | Ann.union ts =>
    match ts with
    | [t, PyType.noneType] => "typing.Optional[" ++ pyTypeName t ++ "]"
    | _ => "typing.Union[" ++ String.intercalate ", " (ts.map pyTypeName) ++ "]"

/-- One entry of `signature.parameters` (an `OrderedDict`): the parameter name
and its declared annotation. -/
structure SigParam where
  name : String
  ann : Ann
  deriving DecidableEq, Repr

/-- The ordered parameter sequence of an `inspect.Signature`. -/
abbrev Signature := List SigParam

/-- Keyword-argument map, as an insertion-ordered Python `dict`. -/
abbrev Kwargs := List (String × SyftVal)

/-- The names of `signature.parameters`, in declaration order. -/
def paramNames (sig : Signature) : List String := sig.map SigParam.name

/-- `signature.parameters[key]` lookup. -/
def lookupParam (sig : Signature) (key : String) : Option SigParam :=
  match sig with
  | [] => none
  | p :: rest => if p.name = key then some p else lookupParam rest key

/-- Python `dict` lookup on the association-list embedding. -/
def lookupAssoc (l : Kwargs) (key : String) : Option SyftVal :=
  match l with
  | [] => none
  | (k, v) :: rest => if k = key then some v else lookupAssoc rest key

/-- Python `dict` key-membership test. -/
def hasKey (l : Kwargs) (key : String) : Bool :=
  match l with
  | [] => false
  | (k, _) :: rest => if k = key then true else hasKey rest key

/-- Python `d[key] = value`: overwrite in place (keys keep their original
insertion position) or append a fresh key. -/
def setAssoc (l : Kwargs) (key : String) (value : SyftVal) : Kwargs :=
  match l with
  | [] => [(key, value)]
  | (k, v) :: rest =>
    if k = key then (k, value) :: rest else (k, v) :: setAssoc rest key value

/-- Python `d.update(other)`: set every pair of `other` in iteration order. -/
def updateAssoc (l : Kwargs) (other : Kwargs) : Kwargs :=
  other.foldl (fun acc kv => setAssoc acc kv.1 kv.2) l

/-- Error value returned through the result channel (`SyftError`),
carrying a human-readable message. -/
structure SyftError where
  message : String
  deriving DecidableEq, Repr

/-- Success value (`SyftSuccess`). -/
structure SyftSuccess where
  message : String
  deriving DecidableEq, Repr

/-- Python `repr` of a list of strings, as produced by
`f"{list(signature.parameters)}"`. -/
def pyStrListRepr (l : List String) : String :=
  "[" ++ String.intercalate ", " (l.map (fun s => "'" ++ s ++ "'")) ++ "]"

/-- The unknown-keyword message of `validate_callable_args_and_kwargs`. -/
def invalidParamMsg (key : String) (sig : Signature) : String :=
  "Invalid parameter: `" ++ key ++ "`. Valid Parameters: " ++
    pyStrListRepr (paramNames sig)

/-- The keyword type-mismatch message of `validate_callable_args_and_kwargs`. -/
def mustBeMsg (key tstr : String) (value : SyftVal) : String :=
  "`" ++ key ++ "` must be of type `" ++ tstr ++ "` not `" ++
    pyClassName value ++ "`"

/-- The positional type-mismatch message of
`validate_callable_args_and_kwargs`. -/
def argMsg (arg : SyftVal) (tstr : String) : String :=
  "Arg: " ++ pyStr arg ++ " must be " ++ tstr ++ " not " ++ pyClassName arg

/-- Keyword branch of the per-value type check (api.py:996-1016): a union
containing `NoneType` is accepted when any member matches; otherwise a plain
`check_type` runs (which on a union also accepts any member); a failure
produces the type-mismatch message. -/
def kwargTypeError (key : String) (value : SyftVal) : Ann → Option String
  | Ann.empty => none
  | Ann.ty t =>
    if checkType value t then none
    else some (mustBeMsg key (pyTypeName t) value)
  | Ann.union ts =>
    if ts.any (fun t => checkType value t) then none
    else some (mustBeMsg key (annStr (Ann.union ts)) value)

/-- Positional branch of the per-value type check (api.py:1033-1056): for a
union containing `NoneType` the source's loop calls `check_type` on the first
member and unconditionally breaks, so only the first alternative is ever
tested; a plain annotation or `NoneType`-free union goes through `check_type`.
The `autoreload` developer toggle is outside the spec's scope and modelled as
disabled. -/
def argTypeError (arg : SyftVal) : Ann → Option String
  | Ann.empty => none
  | Ann.ty t =>
    if checkType arg t then none
    else some (argMsg arg (pyTypeName t))
  | Ann.union ts =>
    if PyType.noneType ∈ ts then
      match ts with
      | [] => none
      | t :: _ =>
        if checkType arg t then none
        else some (argMsg arg (annStr (Ann.union ts)))
    else
      if ts.any (fun t => checkType arg t) then none
      else some (argMsg arg (annStr (Ann.union ts)))

/-- The keyword loop of `validate_callable_args_and_kwargs` (api.py:984-1021):
each supplied keyword must name a declared parameter and satisfy its
annotation; validated pairs accumulate into `_valid_kwargs`. -/
def validateKwargsLoop (sig : Signature) : Kwargs → Kwargs → Except SyftError Kwargs
  | acc, [] => Except.ok acc
  | acc, (key, value) :: rest =>
    match lookupParam sig key with
    | none => Except.error ⟨invalidParamMsg key sig⟩
    | some p =>
      match kwargTypeError key value p.ann with
      | some m => Except.error ⟨m⟩
      | none => validateKwargsLoop sig (setAssoc acc key value) rest

/-- The positional loop of `validate_callable_args_and_kwargs`
(api.py:1030-1061) over the zip of declared parameters with supplied
positional arguments: parameters already satisfied by keyword are skipped
(their paired argument is dropped), others are type-checked and appended. -/
def validateArgsLoop (vk : Kwargs) : List (SigParam × SyftVal) → Except SyftError (List SyftVal)
  | [] => Except.ok []
  | (p, arg) :: rest =>
    if hasKey vk p.name then validateArgsLoop vk rest
    else
      match argTypeError arg p.ann with
      | some m => Except.error ⟨m⟩
      | none =>
        match validateArgsLoop vk rest with
        | Except.error e => Except.error e
        | Except.ok va => Except.ok (arg :: va)

/-- `validate_callable_args_and_kwargs` (api.py:977-1063).  A parameter
literally named `kwargs` is the catch-all keyword escape hatch (all keywords
pass through unvalidated); a parameter literally named `args` is the catch-all
positional escape hatch.  Otherwise keywords are validated against the
signature and positional arguments are zip-matched against declared parameter
order (Python `zip` truncates to the shorter sequence). -/
def validate_callable_args_and_kwargs (args : List SyftVal) (kwargs : Kwargs)
    (sig : Signature) : Except SyftError (List SyftVal × Kwargs) :=
  let vkRes :=
    if "kwargs" ∈ paramNames sig then Except.ok kwargs
    else validateKwargsLoop sig [] kwargs
  match vkRes with
  | Except.error e => Except.error e
  | Except.ok vk =>
    let vaRes :=
      if "args" ∈ paramNames sig then Except.ok args
      else validateArgsLoop vk (sig.zip args)
    match vaRes with
    | Except.error e => Except.error e
    | Except.ok va => Except.ok (va, vk)

/-! ## The signed call envelope (`SyftAPICall.sign`, `SignedSyftAPICall.is_valid`) -/

/-- The `SyftAPICall` message: target node, endpoint path, validated
positional and keyword arguments, and the `blocking` control flag. -/
structure SyftAPICall where
  node_uid : Nat
  path : String
  args : List SyftVal
  kwargs : Kwargs
  blocking : Bool
  deriving DecidableEq, Repr

/-- Modelled from the spec: the codec collaborator's `encode(value) -> bytes`
(`_serialize(..., to_bytes=True)` lives outside the shown source).  A concrete
deterministic byte encoding of a call; bytes are naturals. -/
def encodeString (s : String) : List Nat :=
  s.length :: s.data.map Char.toNat

/-- Byte encoding of one embedded value, with a leading tag byte. -/
def encodeVal : SyftVal → List Nat
  | SyftVal.vInt n => [0, if n < 0 then 1 else 0, n.natAbs]
  | SyftVal.vStr s => 1 :: encodeString s
  | SyftVal.vBool b => [2, if b then 1 else 0]
  | SyftVal.vNone => [3]

/-- Modelled from the spec: serialization of a whole `SyftAPICall` to bytes by
the external codec collaborator. -/
def serializeCall (c : SyftAPICall) : List Nat :=
  c.node_uid ::
    (encodeString c.path ++
      (c.args.map encodeVal).flatten ++
      (c.kwargs.map (fun kv => encodeString kv.1 ++ encodeVal kv.2)).flatten ++
      [if c.blocking then 1 else 0])

/-- A signing credential (`SyftSigningKey`); the underlying Ed25519 key is
abstracted to a natural. -/
structure SyftSigningKey where
  key : Nat
  deriving DecidableEq, Repr

/-- Modelled from the spec: the credential collaborator's signing-key →
verify-key derivation. -/
def SyftSigningKey.verify_key (k : SyftSigningKey) : Nat := k.key

/-- Modelled from the spec: an Ed25519 signature value, idealized as an
unforgeable binding of the signer's verify key to the exact signed bytes. -/
structure NaclSig where
  vk : Nat
  msg : List Nat
  deriving DecidableEq, Repr

/-- Modelled from the spec: the credential collaborator's
`sign(bytes) -> signatureBytes`. -/
def naclSign (k : SyftSigningKey) (msg : List Nat) : NaclSig :=
  ⟨k.verify_key, msg⟩

/-- Modelled from the spec: the credential collaborator's
`verify(verifyKey, bytes, signatureBytes) -> bool`; in the idealized model a
signature verifies exactly under the signer's verify key on the exact signed
bytes. -/
def naclVerify (vk : Nat) (msg : List Nat) (sig : NaclSig) : Bool :=
  decide (sig.vk = vk ∧ sig.msg = msg)

/-- The `SignedSyftAPICall` envelope: the signer's verify key
(`credentials`), the signature, and the serialized payload bytes. -/
structure SignedSyftAPICall where
  credentials : Nat
  signature : NaclSig
  serialized_message : List Nat
  deriving DecidableEq, Repr

/-- `SyftAPICall.sign` (api.py:188-195): serialize the call, sign those exact
bytes, and wrap the verify key, signature and serialized bytes. -/
def SyftAPICall.sign (c : SyftAPICall) (credentials : SyftSigningKey) : SignedSyftAPICall :=
  let signed_message := naclSign credentials (serializeCall c)
  { credentials := credentials.verify_key
    signature := signed_message
    serialized_message := serializeCall c }

/-- `SignedSyftAPICall.is_valid` (api.py:162-171): re-run signature
verification over the stored serialized bytes under the stored verify key;
`BadSignatureError` yields a `SyftError`. -/
def SignedSyftAPICall.is_valid (e : SignedSyftAPICall) : Except SyftError SyftSuccess :=
  if naclVerify e.credentials e.serialized_message e.signature
  then Except.ok ⟨"Credentials are valid"⟩
  else Except.error ⟨"BadSignatureError"⟩

/-! ## The remote-function call pipeline (`RemoteFunction.__call__`) -/

/-- The client-side endpoint stub (`RemoteFunction`): node id, validated
signature, service path, optional pre-bound keyword arguments, the negotiated
communication protocol (stored as the value attached to calls), and the
endpoint's optional usage warning.  The warning's `show()` prompt is an
external interactive collaborator; its Boolean field here is the caller's
confirmation outcome. -/
structure RemoteFunction where
  node_uid : Nat
  signature : Signature
  path : String
  pre_kwargs : Option Kwargs
  communication_protocol : SyftVal
  warning : Option Bool
  deriving DecidableEq, Repr

/-- Modelled from the spec: `migrate_args_and_kwargs` of the protocol
migration engine; every value of the embedded universe is plain (unversioned)
and passes through unchanged. -/
def migrate_args_and_kwargs (args : List SyftVal) (kwargs : Kwargs) :
    List SyftVal × Kwargs :=
  (args, kwargs)

/-- `RemoteFunction.prepare_args_and_kwargs` (api.py:240-253): validate, then
migrate to the wire protocol. -/
def RemoteFunction.prepare_args_and_kwargs (rf : RemoteFunction)
    (args : List SyftVal) (kwargs : Kwargs) :
    Except SyftError (List SyftVal × Kwargs) :=
  match validate_callable_args_and_kwargs args kwargs rf.signature with
  | Except.error e => Except.error e
  | Except.ok (a, k) =>
    let (a2, k2) := migrate_args_and_kwargs a k
    Except.ok (a2, k2)

/-- What one invocation of a `RemoteFunction` does, up to the dispatch point:
a raised `Exception` (fatal), a returned `SyftError` value, a silent `None`
return (declined warning), or a `SyftAPICall` handed to
`make_call` (the signing + transport path). -/
inductive CallOutcome where
  | fatal (msg : String)
  | err (e : SyftError)
  | noop
  | dispatched (call : SyftAPICall)
  deriving DecidableEq, Repr

/-- `del kwargs["blocking"]`: remove the reserved control keyword. -/
def stripBlocking (kwargs : Kwargs) : Kwargs :=
  kwargs.filter (fun kv => !(kv.1 == "blocking"))

/-- Modelled rendering of Python `str(Signature)`, used only inside raised
reserved-keyword messages (parameter annotations and defaults are not
rendered). -/
def sigStr (sig : Signature) : String :=
  "(" ++ String.intercalate ", " (paramNames sig) ++ ")"

/-- `RemoteFunction.__call__` (api.py:255-293): reject a signature declaring
the reserved `blocking` parameter; pop the caller's `blocking` control
keyword; validate and migrate; merge pre-bound kwargs (`dict.update`, only
when truthy, i.e. present and non-empty); attach the communication protocol as
a reserved keyword; build the `SyftAPICall`; then consult the usage warning —
a declined warning returns `None` with no dispatch, otherwise the call goes to
`make_call`. -/
def RemoteFunction.call (rf : RemoteFunction) (args : List SyftVal)
    (kwargs : Kwargs) : CallOutcome :=
  if "blocking" ∈ paramNames rf.signature then
    CallOutcome.fatal ("Signature " ++ sigStr rf.signature ++
      " can't have 'blocking' kwarg because it's reserved")
  else
    let blocking :=
      match lookupAssoc kwargs "blocking" with
      | some v => pyBool v
      | none => true
    match rf.prepare_args_and_kwargs args (stripBlocking kwargs) with
    | Except.error e => CallOutcome.err e
    | Except.ok (va, vk) =>
      let vk1 :=
        match rf.pre_kwargs with
        | some pk => if pk.isEmpty then vk else updateAssoc vk pk
        | none => vk
      let vk2 := setAssoc vk1 "communication_protocol" rf.communication_protocol
      let api_call : SyftAPICall :=
        { node_uid := rf.node_uid, path := rf.path, args := va, kwargs := vk2,
          blocking := blocking }
      match rf.warning with
      | some false => CallOutcome.noop
      | _ => CallOutcome.dispatched api_call

/-- `generate_remote_function` (api.py:349-388): a signature declaring the
reserved `blocking` parameter raises immediately at construction time;
otherwise the endpoint stub is built.  (The `code.call` special case yields a
`RemoteUserCodeFunction` with identical construction-time checks and fields.) -/
def generate_remote_function (node_uid : Nat) (sig : Signature) (path : String)
    (pre_kwargs : Option Kwargs) (communication_protocol : SyftVal)
    (warning : Option Bool) : Except String RemoteFunction :=
  if "blocking" ∈ paramNames sig then
    Except.error ("Signature " ++ sigStr sig ++
      " can't have 'blocking' kwarg because it's reserved")
  else
    Except.ok
      { node_uid := node_uid, signature := sig, path := path,
        pre_kwargs := pre_kwargs,
        communication_protocol := communication_protocol, warning := warning }

/-- The data closed over by the library-endpoint wrapper produced by
`generate_remote_lib_function`. -/
structure LibRemoteFunction where
  node_uid : Nat
  signature : Signature
  path : String
  module_path : String
  pre_kwargs : Kwargs
  deriving DecidableEq, Repr

/-- `generate_remote_lib_function` (api.py:391-404): the same reserved
`blocking` check raises at construction time (the source's message here reads
"its reserved") before the wrapper closure is created. -/
def generate_remote_lib_function (node_uid : Nat) (sig : Signature)
    (path module_path : String) (pre_kwargs : Kwargs) :
    Except String LibRemoteFunction :=
  if "blocking" ∈ paramNames sig then
    Except.error ("Signature " ++ sigStr sig ++
      " can't have 'blocking' kwarg because its reserved")
  else
    Except.ok
      { node_uid := node_uid, signature := sig, path := path,
        module_path := module_path, pre_kwargs := pre_kwargs }

/-! ## The proxy module tree (`APIModule`, `SyftAPI._add_route`) -/

/-- A node of the proxy namespace: either a submodule (`APIModule`, with its
dotted path and registered children in insertion order) or a leaf endpoint
callable. -/
inductive APIEntry where
  | mod (path : String) (children : List (String × APIEntry))
  | fn (f : RemoteFunction)

/-- Registered-child lookup on an `APIModule`'s attribute map. -/
def lookupChild : List (String × APIEntry) → String → Option APIEntry
  | [], _ => none
  | (n, e) :: rest, s => if n = s then some e else lookupChild rest s

/-- `APIModule._add_submodule`: `setattr` overwrites an existing attribute in
place or registers a fresh one. -/
def setChild : List (String × APIEntry) → String → APIEntry → List (String × APIEntry)
  | [], s, e => [(s, e)]
  | (n, e0) :: rest, s, e =>
    if n = s then (n, e) :: rest else (n, e0) :: setChild rest s e

/-- The descent loop of `SyftAPI._add_route` (api.py:771-779) over the module
chain: a missing segment gets a fresh empty `APIModule` (whose `path` extends
the parent's with a dot); an existing submodule is entered; an existing leaf
callable in the way is a fault (`none`) since a plain function has no
`_add_submodule`; after the chain, the leaf is registered under the endpoint's
display name. -/
def addRouteGo (f : RemoteFunction) (leafName : String) :
    String → List (String × APIEntry) → List String →
    Option (List (String × APIEntry))
  | _, ch, [] => some (setChild ch leafName (APIEntry.fn f))
  | path, ch, s :: rest =>
    match lookupChild ch s with
    | none =>
      match addRouteGo f leafName (path ++ "." ++ s) [] rest with
      | some sub => some (setChild ch s (APIEntry.mod (path ++ "." ++ s) sub))
      | none => none
    | some (APIEntry.mod p2 ch2) =>
      match addRouteGo f leafName p2 ch2 rest with
      | some sub => some (setChild ch s (APIEntry.mod p2 sub))
      | none => none
    | some (APIEntry.fn _) => none

/-- Python `str.split(".")` on the character list: empty segments are kept
and the empty string yields one empty segment. -/
def splitDots : List Char → List (List Char)
  | [] => [[]]
  | c :: rest =>
    if c = '.' then [] :: splitDots rest
    else
      match splitDots rest with
      | [] => [[c]]
      | seg :: segs => (c :: seg) :: segs

/-- `module_path.split(".")`: the dotted segments of a module path. -/
def splitPath (s : String) : List String :=
  (splitDots s.data).map (fun cs => String.mk cs)

/-- `SyftAPI._add_route` (api.py:763-779): the module chain is every dotted
segment of `module_path` but the last, and the leaf key is the endpoint's
display name. -/
def _add_route (path : String) (ch : List (String × APIEntry))
    (module_path name : String) (f : RemoteFunction) :
    Option (List (String × APIEntry)) :=
  addRouteGo f name path ch ((splitPath module_path).dropLast)

/-- Path resolution in the proxy tree: follow submodules along the segments
and return whatever entry sits at the last one. -/
def findEntry : List (String × APIEntry) → List String → Option APIEntry
  | _, [] => none
  | ch, [s] => lookupChild ch s
  | ch, s :: s2 :: rest =>
    match lookupChild ch s with
    | some (APIEntry.mod _ ch2) => findEntry ch2 (s2 :: rest)
    | _ => none

/-- Python exception values distinguishable by the caller: the language's
plain `AttributeError`, and `SyftAttributeError`.  Modelled from the spec:
the `SyftAttributeError` class itself is declared outside the shown source;
per the spec it is the dedicated `UnknownMember` error, a type distinct from
the plain missing-attribute fault. -/
inductive PyExc where
  | attributeError (msg : String)
  | syftAttributeError (msg : String)
  deriving DecidableEq, Repr

/-- The message raised by `APIModule.__getattribute__` for an unknown member
(api.py:492-495). -/
def unknownMemberMsg (path name : String) : String :=
  "'APIModule' api" ++ path ++ " object has no submodule or method '" ++
    name ++ "', you may not have permission to access the module you are trying to access"

/-- `APIModule.__getattribute__` (api.py:488-495): a registered submodule or
method is returned; otherwise the plain `AttributeError` is intercepted and a
`SyftAttributeError` carrying the node path and requested name is raised
instead. -/
def getattribute (path : String) (ch : List (String × APIEntry))
    (name : String) : Except PyExc APIEntry :=
  match lookupChild ch name with
  | some e => Except.ok e
  | none => Except.error (PyExc.syftAttributeError (unknownMemberMsg path name))

/-- `build_endpoint_tree` of `SyftAPI.generate_endpoints` (api.py:781-824),
restricted to the per-endpoint routing step: fold `_add_route` over the
endpoint map (each entry carrying its module path, display name, and the
generated stub); construction faults propagate as `none`. -/
def build_endpoint_tree (endpoints : List (String × String × RemoteFunction)) :
    Option (List (String × APIEntry)) :=
  endpoints.foldl
    (fun acc e =>
      match acc with
      | none => none
      | some ch => _add_route "" ch e.1 e.2.1 e.2.2)
    (some [])

/-! ## Basic lemmas about the embedded dict and signature operations -/

lemma lookupParam_eq_none (sig : Signature) (k : String) :
    lookupParam sig k = none ↔ k ∉ paramNames sig := by
  induction sig with
  | nil => simp [lookupParam, paramNames]
  | cons p rest ih =>
    by_cases h : p.name = k <;>
      simp [lookupParam, paramNames, h, ih, eq_comm (a := k)]

lemma mem_paramNames_of_lookupParam {sig : Signature} {k : String} {p : SigParam}
    (h : lookupParam sig k = some p) : k ∈ paramNames sig := by
  by_contra hk
  rw [← lookupParam_eq_none] at hk
  rw [h] at hk
  cases hk

lemma lookupAssoc_setAssoc_self (l : Kwargs) (k : String) (v : SyftVal) :
    lookupAssoc (setAssoc l k v) k = some v := by
  induction l with
  | nil => simp [setAssoc, lookupAssoc]
  | cons kv rest ih =>
    by_cases h : kv.1 = k <;> simp [setAssoc, lookupAssoc, h, ih]

lemma lookupAssoc_setAssoc_ne (l : Kwargs) (k k2 : String) (v : SyftVal)
    (h : k ≠ k2) : lookupAssoc (setAssoc l k2 v) k = lookupAssoc l k := by
  have h2 : ¬(k2 = k) := fun he => h he.symm
  induction l with
  | nil => simp [setAssoc, lookupAssoc, h2]
  | cons kv rest ih =>
    by_cases hc : kv.1 = k2
    · simp [setAssoc, lookupAssoc, hc, h2]
    · simp [setAssoc, lookupAssoc, hc, ih]

lemma lookupAssoc_updateAssoc_notsent (l : Kwargs) (pk : Kwargs) (k : String)
    (h : k ∉ pk.map Prod.fst) :
    lookupAssoc (updateAssoc l pk) k = lookupAssoc l k := by
  induction pk generalizing l with
  | nil => rfl
  | cons kv rest ih =>
    simp only [List.map_cons, List.mem_cons, not_or] at h
    have hstep : updateAssoc l (kv :: rest) = updateAssoc (setAssoc l kv.1 kv.2) rest := rfl
    rw [hstep, ih _ h.2]
    exact lookupAssoc_setAssoc_ne _ _ _ _ h.1

lemma lookupAssoc_updateAssoc_sent (l : Kwargs) (pk : Kwargs) (k : String)
    (v : SyftVal) (hnd : (pk.map Prod.fst).Nodup) (h : lookupAssoc pk k = some v) :
    lookupAssoc (updateAssoc l pk) k = some v := by
  induction pk generalizing l with
  | nil => cases h
  | cons kv rest ih =>
    have hstep : updateAssoc l (kv :: rest) = updateAssoc (setAssoc l kv.1 kv.2) rest := rfl
    simp only [List.map_cons, List.nodup_cons] at hnd
    by_cases he : kv.1 = k
    · have hv : v = kv.2 := by
        simp [lookupAssoc, he] at h
        exact h.symm
      rw [hstep, lookupAssoc_updateAssoc_notsent _ _ _ (he ▸ hnd.1), ← he,
        lookupAssoc_setAssoc_self, hv]
    · have h2 : lookupAssoc rest k = some v := by
        simpa [lookupAssoc, he] using h
      rw [hstep, ih _ hnd.2 h2]

lemma mem_stripBlocking {kwargs : Kwargs} {k : String} {v : SyftVal}
    (hmem : (k, v) ∈ kwargs) (hk : k ≠ "blocking") :
    (k, v) ∈ stripBlocking kwargs := by
  refine List.mem_filter.mpr ⟨hmem, ?_⟩
  simp [hk]

lemma zip_take_self {α β : Type} :
    ∀ (l : List α) (l2 : List β), l.zip (l2.take l.length) = l.zip l2
  | [], _ => by simp
  | _ :: _, [] => by simp
  | a :: as, b :: bs => by simp [zip_take_self as bs]

lemma list_set_ne_of_getElem_ne {l : List Nat} {i b : Nat}
    (h : i < l.length) (hb : l[i]? ≠ some b) : l ≠ l.set i b := by
  intro he
  apply hb
  have hset : (l.set i b)[i]? = some b := by
    simp [List.getElem?_set_self, h]
  rw [← he] at hset
  exact hset

/-! ## Claim theorems -/

/-- C1: verifying the envelope produced by signing any call with any signing
key succeeds; changing any single byte of the serialized payload, or replacing
the stored verify key by a different key, makes verification fail. -/
theorem sign_then_verify (c : SyftAPICall) (k : SyftSigningKey) (i b vk2 : Nat)
    (h : i < (serializeCall c).length)
    (hb : (serializeCall c)[i]? ≠ some b)
    (hvk : vk2 ≠ k.verify_key) :
    (c.sign k).is_valid = Except.ok ⟨"Credentials are valid"⟩ ∧
    SignedSyftAPICall.is_valid
      { c.sign k with serialized_message := (serializeCall c).set i b }
      = Except.error ⟨"BadSignatureError"⟩ ∧
    SignedSyftAPICall.is_valid { c.sign k with credentials := vk2 }
      = Except.error ⟨"BadSignatureError"⟩ := by
  refine ⟨?_, ?_, ?_⟩
  · simp [SyftAPICall.sign, SignedSyftAPICall.is_valid, naclVerify, naclSign]
  · have hne : serializeCall c ≠ (serializeCall c).set i b :=
      list_set_ne_of_getElem_ne h hb
    simp [SyftAPICall.sign, SignedSyftAPICall.is_valid, naclVerify, naclSign, hne]
  · simp [SyftAPICall.sign, SignedSyftAPICall.is_valid, naclVerify, naclSign,
      Ne.symm hvk]

/-- Witness for C1 at a concrete call, key, byte position and substitute key. -/
theorem sign_then_verify_witness :
    ((SyftAPICall.mk 1 "p" [] [] true).sign ⟨5⟩).is_valid
      = Except.ok ⟨"Credentials are valid"⟩ ∧
    SignedSyftAPICall.is_valid
      { (SyftAPICall.mk 1 "p" [] [] true).sign ⟨5⟩ with
          serialized_message :=
            (serializeCall (SyftAPICall.mk 1 "p" [] [] true)).set 0 99 }
      = Except.error ⟨"BadSignatureError"⟩ ∧
    SignedSyftAPICall.is_valid
      { (SyftAPICall.mk 1 "p" [] [] true).sign ⟨5⟩ with credentials := 6 }
      = Except.error ⟨"BadSignatureError"⟩ :=
  sign_then_verify (SyftAPICall.mk 1 "p" [] [] true) ⟨5⟩ 0 99 6
    (by decide) (by decide) (by decide)

/-- C4 (code bug): the claim says an optional (union-with-None) annotation
accepts a value matching any alternative for positional arguments as well as
for keyword arguments.  The keyword branch does (second conjunct), but the
positional branch's loop breaks unconditionally after checking the first union
member, so a positional `None` against `Optional[int]` is rejected (first
conjunct) — contradicting the source's own "only need one to match" comment. -/
theorem positional_optional_checks_first_member_only :
    validate_callable_args_and_kwargs [SyftVal.vNone] []
      [⟨"x", Ann.union [PyType.int, PyType.noneType]⟩]
      = Except.error ⟨"Arg: None must be typing.Optional[int] not NoneType"⟩ ∧
    validate_callable_args_and_kwargs [] [("x", SyftVal.vNone)]
      [⟨"x", Ann.union [PyType.int, PyType.noneType]⟩]
      = Except.ok ([], [("x", SyftVal.vNone)]) :=
  ⟨rfl, rfl⟩

/-- C5: declaring an endpoint whose signature contains a parameter literally
named `blocking` makes both remote-callable constructors fail immediately with
a raised construction-time error (an `Except.error` of the construction
function, not a per-call `SyftError` value). -/
theorem blocking_param_construction_fatal (node_uid : Nat) (sig : Signature)
    (path module_path : String) (pre_kwargs : Option Kwargs)
    (lib_pre_kwargs : Kwargs) (communication_protocol : SyftVal)
    (warning : Option Bool) (h : "blocking" ∈ paramNames sig) :
    generate_remote_function node_uid sig path pre_kwargs
        communication_protocol warning
      = Except.error ("Signature " ++ sigStr sig ++
          " can't have 'blocking' kwarg because it's reserved") ∧
    generate_remote_lib_function node_uid sig path module_path lib_pre_kwargs
      = Except.error ("Signature " ++ sigStr sig ++
          " can't have 'blocking' kwarg because its reserved") := by
  constructor
  · simp [generate_remote_function, h]
  · simp [generate_remote_lib_function, h]

/-- Witness for C5 at a concrete signature declaring `blocking`. -/
theorem blocking_param_construction_fatal_witness :
    generate_remote_function 0 [⟨"blocking", Ann.empty⟩] "svc.op" none
        SyftVal.vNone none
      = Except.error ("Signature " ++ sigStr [⟨"blocking", Ann.empty⟩] ++
          " can't have 'blocking' kwarg because it's reserved") ∧
    generate_remote_lib_function 0 [⟨"blocking", Ann.empty⟩] "svc.op" "m.op" []
      = Except.error ("Signature " ++ sigStr [⟨"blocking", Ann.empty⟩] ++
          " can't have 'blocking' kwarg because its reserved") :=
  blocking_param_construction_fatal 0 [⟨"blocking", Ann.empty⟩] "svc.op" "m.op"
    none [] SyftVal.vNone none (by decide)

/-- C10: with no catch-all `args` parameter, excess positional arguments
beyond the declared parameters are silently discarded by the zip-matching
(validation of any argument list equals validation of its truncation to the
parameter count, so the excess can produce no error); a positional argument
zip-paired with a parameter already satisfied by keyword is dropped, not
shifted to the next parameter; and the validated argument list can be strictly
shorter than the supplied one. -/
theorem excess_positional_args_discarded (sig : Signature)
    (args : List SyftVal) (kwargs : Kwargs)
    (h : "args" ∉ paramNames sig) :
    validate_callable_args_and_kwargs args kwargs sig
      = validate_callable_args_and_kwargs (args.take sig.length) kwargs sig ∧
    validate_callable_args_and_kwargs [SyftVal.vStr "h"]
        [("a", SyftVal.vInt 1)]
        [⟨"a", Ann.ty PyType.int⟩, ⟨"b", Ann.ty PyType.str⟩]
      = Except.ok ([], [("a", SyftVal.vInt 1)]) ∧
    validate_callable_args_and_kwargs
        [SyftVal.vInt 1, SyftVal.vStr "x", SyftVal.vNone] []
        [⟨"a", Ann.ty PyType.int⟩]
      = Except.ok ([SyftVal.vInt 1], []) := by
  refine ⟨?_, rfl, rfl⟩
  have hz : sig.zip (args.take sig.length) = sig.zip args := zip_take_self sig args
  simp [validate_callable_args_and_kwargs, h, hz]

/-- Witness for C10: three excess positional arguments against a one-parameter
signature validate exactly like their truncation. -/
theorem excess_positional_args_discarded_witness :
    validate_callable_args_and_kwargs
        [SyftVal.vInt 1, SyftVal.vStr "x", SyftVal.vNone] []
        [⟨"a", Ann.ty PyType.int⟩]
      = validate_callable_args_and_kwargs
          ([SyftVal.vInt 1, SyftVal.vStr "x", SyftVal.vNone].take
            ([⟨"a", Ann.ty PyType.int⟩] : Signature).length) []
          [⟨"a", Ann.ty PyType.int⟩] ∧
    validate_callable_args_and_kwargs [SyftVal.vStr "h"]
        [("a", SyftVal.vInt 1)]
        [⟨"a", Ann.ty PyType.int⟩, ⟨"b", Ann.ty PyType.str⟩]
      = Except.ok ([], [("a", SyftVal.vInt 1)]) ∧
    validate_callable_args_and_kwargs
        [SyftVal.vInt 1, SyftVal.vStr "x", SyftVal.vNone] []
        [⟨"a", Ann.ty PyType.int⟩]
      = Except.ok ([SyftVal.vInt 1], []) :=
  excess_positional_args_discarded [⟨"a", Ann.ty PyType.int⟩]
    [SyftVal.vInt 1, SyftVal.vStr "x", SyftVal.vNone] [] (by decide)

/-- The keyword loop fails whenever some supplied pair either names an unknown
parameter or fails its parameter's type check. -/
lemma validateKwargsLoop_err (sig : Signature) (k : String) (v : SyftVal) :
    ∀ (kws acc : Kwargs), (k, v) ∈ kws →
      (lookupParam sig k = none ∨
        ∀ p, lookupParam sig k = some p → kwargTypeError k v p.ann ≠ none) →
      ∃ e, validateKwargsLoop sig acc kws = Except.error e := by
  intro kws
  induction kws with
  | nil => intro acc hmem; cases hmem
  | cons kv rest ih =>
    intro acc hmem hbad
    obtain ⟨k0, v0⟩ := kv
    cases hpk : lookupParam sig k0 with
    | none =>
      exact ⟨⟨invalidParamMsg k0 sig⟩, by simp [validateKwargsLoop, hpk]⟩
    | some p =>
      cases hte : kwargTypeError k0 v0 p.ann with
      | some m => exact ⟨⟨m⟩, by simp [validateKwargsLoop, hpk, hte]⟩
      | none =>
        rcases List.mem_cons.mp hmem with heq | hrest
        · injection heq with hk hv
          subst hk
          subst hv
          rcases hbad with hnone | hall
          · rw [hpk] at hnone; cases hnone
          · exact absurd hte (hall p hpk)
        · obtain ⟨e, he⟩ := ih (setAssoc acc k0 v0) hrest hbad
          exact ⟨e, by simp [validateKwargsLoop, hpk, hte, he]⟩

/-- A keyword-phase validation error propagates out of
`validate_callable_args_and_kwargs` when no catch-all `kwargs` parameter is
declared. -/
lemma validate_error_of_kwargsLoop (args : List SyftVal) (kws : Kwargs)
    (sig : Signature) (e : SyftError)
    (hcatch : "kwargs" ∉ paramNames sig)
    (h : validateKwargsLoop sig [] kws = Except.error e) :
    validate_callable_args_and_kwargs args kws sig = Except.error e := by
  simp [validate_callable_args_and_kwargs, hcatch, h]

/-- A validation error makes `RemoteFunction.__call__` return that `SyftError`
value: no `SyftAPICall` is constructed or dispatched. -/
lemma call_err_of_validate_error (rf : RemoteFunction) (args : List SyftVal)
    (kwargs : Kwargs) (e : SyftError)
    (hb : "blocking" ∉ paramNames rf.signature)
    (hv : validate_callable_args_and_kwargs args (stripBlocking kwargs)
        rf.signature = Except.error e) :
    rf.call args kwargs = CallOutcome.err e := by
  simp [RemoteFunction.call, hb, RemoteFunction.prepare_args_and_kwargs, hv]

/-- C2: a supplied keyword (other than the reserved control keyword
`blocking`) naming no declared parameter, with no catch-all `kwargs`
parameter, makes the invocation return a `SyftError` value — no call is
dispatched — and when that keyword is the first one validated, the error
message names exactly that key. -/
theorem unknown_kwarg_returns_error (rf : RemoteFunction) (args : List SyftVal)
    (kwargs : Kwargs) (k : String) (v : SyftVal)
    (hb : "blocking" ∉ paramNames rf.signature)
    (hcatch : "kwargs" ∉ paramNames rf.signature)
    (hmem : (k, v) ∈ kwargs)
    (hk : k ∉ paramNames rf.signature)
    (hkb : k ≠ "blocking") :
    (∃ e, rf.call args kwargs = CallOutcome.err e) ∧
    (∀ rest, stripBlocking kwargs = (k, v) :: rest →
      rf.call args kwargs = CallOutcome.err ⟨invalidParamMsg k rf.signature⟩) := by
  have hnone : lookupParam rf.signature k = none := (lookupParam_eq_none _ _).mpr hk
  constructor
  · obtain ⟨e, he⟩ := validateKwargsLoop_err rf.signature k v
      (stripBlocking kwargs) [] (mem_stripBlocking hmem hkb) (Or.inl hnone)
    exact ⟨e, call_err_of_validate_error rf args kwargs e hb
      (validate_error_of_kwargsLoop args _ _ e hcatch he)⟩
  · intro rest hstrip
    refine call_err_of_validate_error rf args kwargs _ hb
      (validate_error_of_kwargsLoop args _ _ _ hcatch ?_)
    rw [hstrip]
    simp [validateKwargsLoop, hnone]

/-- Witness for C2 at a concrete endpoint and unknown keyword. -/
theorem unknown_kwarg_returns_error_witness :
    (∃ e, RemoteFunction.call
        ⟨3, [⟨"x", Ann.ty PyType.int⟩], "svc.op", none, SyftVal.vInt 1, none⟩
        [] [("bogus", SyftVal.vInt 7)] = CallOutcome.err e) ∧
    (∀ rest, stripBlocking [("bogus", SyftVal.vInt 7)]
        = ("bogus", SyftVal.vInt 7) :: rest →
      RemoteFunction.call
          ⟨3, [⟨"x", Ann.ty PyType.int⟩], "svc.op", none, SyftVal.vInt 1, none⟩
          [] [("bogus", SyftVal.vInt 7)]
        = CallOutcome.err
            ⟨invalidParamMsg "bogus" [⟨"x", Ann.ty PyType.int⟩]⟩) :=
  unknown_kwarg_returns_error
    ⟨3, [⟨"x", Ann.ty PyType.int⟩], "svc.op", none, SyftVal.vInt 1, none⟩
    [] [("bogus", SyftVal.vInt 7)] "bogus" (SyftVal.vInt 7)
    (by decide) (by decide) (by decide) (by decide) (by decide)

/-- C3: a keyword argument whose value fails its parameter's declared concrete
type makes the invocation return a `SyftError` value with no dispatch, and in
the single-keyword invocation the error message names the parameter, the
expected type's name and the actual type's name. -/
theorem kwarg_type_mismatch_returns_error (rf : RemoteFunction)
    (args : List SyftVal) (k : String) (t : PyType) (v : SyftVal)
    (hb : "blocking" ∉ paramNames rf.signature)
    (hcatch : "kwargs" ∉ paramNames rf.signature)
    (hparam : lookupParam rf.signature k = some ⟨k, Ann.ty t⟩)
    (hbad : checkType v t = false) :
    (∀ kwargs, (k, v) ∈ kwargs → ∃ e, rf.call args kwargs = CallOutcome.err e) ∧
    rf.call args [(k, v)]
      = CallOutcome.err ⟨mustBeMsg k (pyTypeName t) v⟩ := by
  have hkb : k ≠ "blocking" := by
    intro he
    exact hb (he ▸ mem_paramNames_of_lookupParam hparam)
  have hte : kwargTypeError k v (Ann.ty t) = some (mustBeMsg k (pyTypeName t) v) := by
    simp [kwargTypeError, hbad]
  constructor
  · intro kwargs hmem
    obtain ⟨e, he⟩ := validateKwargsLoop_err rf.signature k v
      (stripBlocking kwargs) [] (mem_stripBlocking hmem hkb)
      (Or.inr (fun p hp => by
        rw [hparam] at hp
        cases hp
        simp [hte]))
    exact ⟨e, call_err_of_validate_error rf args kwargs e hb
      (validate_error_of_kwargsLoop args _ _ e hcatch he)⟩
  · refine call_err_of_validate_error rf args [(k, v)] _ hb
      (validate_error_of_kwargsLoop args _ _ _ hcatch ?_)
    have hstrip : stripBlocking [(k, v)] = [(k, v)] := by
      simp [stripBlocking, hkb]
    rw [hstrip]
    simp [validateKwargsLoop, hparam, hte]

/-- Witness for C3: the spec's own scenario, signature `f(x: int)` invoked
with `x="a"`. -/
theorem kwarg_type_mismatch_returns_error_witness :
    (∀ kwargs, ("x", SyftVal.vStr "a") ∈ kwargs →
      ∃ e, RemoteFunction.call
          ⟨3, [⟨"x", Ann.ty PyType.int⟩], "svc.op", none, SyftVal.vInt 1, none⟩
          [] kwargs = CallOutcome.err e) ∧
    RemoteFunction.call
        ⟨3, [⟨"x", Ann.ty PyType.int⟩], "svc.op", none, SyftVal.vInt 1, none⟩
        [] [("x", SyftVal.vStr "a")]
      = CallOutcome.err
          ⟨mustBeMsg "x" (pyTypeName PyType.int) (SyftVal.vStr "a")⟩ :=
  kwarg_type_mismatch_returns_error
    ⟨3, [⟨"x", Ann.ty PyType.int⟩], "svc.op", none, SyftVal.vInt 1, none⟩
    [] "x" PyType.int (SyftVal.vStr "a")
    (by decide) (by decide) (by decide) (by decide)

/-- On a successfully validated invocation whose warning gate is not declined,
`RemoteFunction.__call__` dispatches the `SyftAPICall` built from the migrated
arguments, the pre-bound merge, the reserved `communication_protocol`
keyword, and the popped `blocking` control flag. -/
lemma call_dispatched (rf : RemoteFunction) (args : List SyftVal)
    (kwargs : Kwargs) (va : List SyftVal) (vk : Kwargs)
    (hb : "blocking" ∉ paramNames rf.signature)
    (hval : validate_callable_args_and_kwargs args (stripBlocking kwargs)
        rf.signature = Except.ok (va, vk))
    (hw : rf.warning ≠ some false) :
    rf.call args kwargs = CallOutcome.dispatched
      { node_uid := rf.node_uid, path := rf.path, args := va,
        kwargs := setAssoc
          (match rf.pre_kwargs with
            | some pk => if pk.isEmpty then vk else updateAssoc vk pk
            | none => vk)
          "communication_protocol" rf.communication_protocol,
        blocking :=
          match lookupAssoc kwargs "blocking" with
          | some v => pyBool v
          | none => true } := by
  cases hwarn : rf.warning with
  | none =>
    simp [RemoteFunction.call, hb, RemoteFunction.prepare_args_and_kwargs,
      hval, migrate_args_and_kwargs, hwarn]
  | some b =>
    cases b with
    | false => exact absurd hwarn hw
    | true =>
      simp [RemoteFunction.call, hb, RemoteFunction.prepare_args_and_kwargs,
        hval, migrate_args_and_kwargs, hwarn]

/-- C7: on a successfully validated invocation, a declared usage warning whose
confirmation is declined makes the invocation return `None` — not an error
value and not a raised fault — with no call dispatched; a confirmed warning
lets the call dispatch normally. -/
theorem declined_warning_noop (rf : RemoteFunction) (args : List SyftVal)
    (kwargs : Kwargs) (va : List SyftVal) (vk : Kwargs)
    (hb : "blocking" ∉ paramNames rf.signature)
    (hval : validate_callable_args_and_kwargs args (stripBlocking kwargs)
        rf.signature = Except.ok (va, vk)) :
    RemoteFunction.call { rf with warning := some false } args kwargs
      = CallOutcome.noop ∧
    ∃ c, RemoteFunction.call { rf with warning := some true } args kwargs
      = CallOutcome.dispatched c := by
  constructor
  · simp [RemoteFunction.call, hb, RemoteFunction.prepare_args_and_kwargs,
      hval, migrate_args_and_kwargs]
  · exact ⟨_, call_dispatched { rf with warning := some true } args kwargs va vk
      hb hval (by simp)⟩

/-- Witness for C7 at a concrete endpoint with a trivially valid invocation. -/
theorem declined_warning_noop_witness :
    RemoteFunction.call
        { (⟨3, [], "svc.op", none, SyftVal.vInt 1, none⟩ : RemoteFunction) with
            warning := some false } [] [] = CallOutcome.noop ∧
    ∃ c, RemoteFunction.call
        { (⟨3, [], "svc.op", none, SyftVal.vInt 1, none⟩ : RemoteFunction) with
            warning := some true } [] [] = CallOutcome.dispatched c :=
  declined_warning_noop ⟨3, [], "svc.op", none, SyftVal.vInt 1, none⟩ [] [] [] []
    (by decide) rfl

/-- C8 counterexample: an invocation whose caller-supplied keyword
`communication_protocol` (admitted by a catch-all `kwargs` parameter) collides
with a pre-bound argument of the same name.  The value that ends up in the
dispatched call is the session's negotiated protocol (`vInt 2`), not the
pre-bound value (`vStr "pre"`), because `__call__` overwrites that reserved
key after the pre-bound merge. -/
theorem pre_kwargs_collision_counterexample :
    RemoteFunction.call
        ⟨7, [⟨"kwargs", Ann.empty⟩], "p",
          some [("communication_protocol", SyftVal.vStr "pre")],
          SyftVal.vInt 2, none⟩
        [] [("communication_protocol", SyftVal.vInt 99)]
      = CallOutcome.dispatched
          ⟨7, "p", [], [("communication_protocol", SyftVal.vInt 2)], true⟩ ∧
    SyftVal.vInt 2 ≠ SyftVal.vStr "pre" :=
  ⟨rfl, by decide⟩

/-- C8 (amended): on a successfully validated, dispatched invocation with
pre-bound arguments, the pre-bound map is merged into the keyword map before
the call is constructed; every pre-bound key appears in the dispatched call's
keyword arguments; and on a collision between a caller-supplied keyword and a
pre-bound argument the pre-bound value wins — except for the reserved key
`communication_protocol`, which is always overwritten with the session's
negotiated protocol after the merge. -/
theorem pre_kwargs_merged_into_call (rf : RemoteFunction) (args : List SyftVal)
    (kwargs : Kwargs) (va : List SyftVal) (vk : Kwargs) (pk : Kwargs)
    (hb : "blocking" ∉ paramNames rf.signature)
    (hw : rf.warning ≠ some false)
    (hpre : rf.pre_kwargs = some pk)
    (hnd : (pk.map Prod.fst).Nodup)
    (hval : validate_callable_args_and_kwargs args (stripBlocking kwargs)
        rf.signature = Except.ok (va, vk)) :
    ∃ c, rf.call args kwargs = CallOutcome.dispatched c ∧
      c.kwargs = setAssoc (if pk.isEmpty then vk else updateAssoc vk pk)
        "communication_protocol" rf.communication_protocol ∧
      ∀ k v, lookupAssoc pk k = some v →
        ∃ v2, lookupAssoc c.kwargs k = some v2 ∧
          (k ≠ "communication_protocol" → v2 = v) := by
  refine ⟨_, call_dispatched rf args kwargs va vk hb hval hw, ?_, ?_⟩
  · simp [hpre]
  · intro k v hpk
    have hpkne : pk.isEmpty = false := by
      cases pk with
      | nil => cases hpk
      | cons kv rest => rfl
    by_cases hc : k = "communication_protocol"
    · subst hc
      refine ⟨rf.communication_protocol, ?_, fun hne => absurd rfl hne⟩
      simp [hpre, lookupAssoc_setAssoc_self]
    · refine ⟨v, ?_, fun _ => rfl⟩
      have h1 : lookupAssoc (updateAssoc vk pk) k = some v :=
        lookupAssoc_updateAssoc_sent vk pk k v hnd hpk
      simp only [hpre, hpkne]
      rw [lookupAssoc_setAssoc_ne _ _ _ _ hc]
      simpa [hpkne] using h1

/-- Witness for C8 (amended) at a concrete endpoint with one pre-bound
argument colliding with a caller-supplied keyword. -/
theorem pre_kwargs_merged_into_call_witness :
    ∃ c, RemoteFunction.call
        ⟨7, [⟨"kwargs", Ann.empty⟩], "p", some [("uid", SyftVal.vInt 42)],
          SyftVal.vInt 2, none⟩
        [] [("uid", SyftVal.vInt 99)]
      = CallOutcome.dispatched c ∧
      c.kwargs = setAssoc
        (if ([("uid", SyftVal.vInt 42)] : Kwargs).isEmpty
          then [("uid", SyftVal.vInt 99)]
          else updateAssoc [("uid", SyftVal.vInt 99)] [("uid", SyftVal.vInt 42)])
        "communication_protocol" (SyftVal.vInt 2) ∧
      ∀ k v, lookupAssoc [("uid", SyftVal.vInt 42)] k = some v →
        ∃ v2, lookupAssoc c.kwargs k = some v2 ∧
          (k ≠ "communication_protocol" → v2 = v) :=
  pre_kwargs_merged_into_call
    ⟨7, [⟨"kwargs", Ann.empty⟩], "p", some [("uid", SyftVal.vInt 42)],
      SyftVal.vInt 2, none⟩
    [] [("uid", SyftVal.vInt 99)] [] [("uid", SyftVal.vInt 99)]
    [("uid", SyftVal.vInt 42)]
    (by decide) (by simp) rfl (by simp) rfl

lemma lookupChild_setChild_self :
    ∀ (ch : List (String × APIEntry)) (s : String) (e : APIEntry),
      lookupChild (setChild ch s e) s = some e := by
  intro ch s e
  induction ch with
  | nil => simp [setChild, lookupChild]
  | cons kv rest ih =>
    by_cases h : kv.1 = s <;> simp [setChild, lookupChild, h, ih]

lemma findEntry_cons (ch : List (String × APIEntry)) (s : String)
    (l : List String) (hl : l ≠ []) :
    findEntry ch (s :: l) =
      match lookupChild ch s with
      | some (APIEntry.mod _ ch2) => findEntry ch2 l
      | _ => none := by
  cases l with
  | nil => exact absurd rfl hl
  | cons a t => rfl

/-- After a successful `addRouteGo` insertion along a module chain, the leaf
sits at the chain extended by the leaf name, and every nonempty prefix of the
chain resolves to a namespace node. -/
lemma addRouteGo_spec (f : RemoteFunction) (leafName : String) :
    ∀ (chain : List String) (path : String) (ch ch2 : List (String × APIEntry)),
      addRouteGo f leafName path ch chain = some ch2 →
      findEntry ch2 (chain ++ [leafName]) = some (APIEntry.fn f) ∧
      ∀ pre suf, pre ≠ [] → pre ++ suf = chain →
        ∃ p3 c3, findEntry ch2 pre = some (APIEntry.mod p3 c3) := by
  intro chain
  induction chain with
  | nil =>
    intro path ch ch2 h
    have h2 : ch2 = setChild ch leafName (APIEntry.fn f) := by
      simpa [addRouteGo] using h.symm
    subst h2
    constructor
    · simp [findEntry, lookupChild_setChild_self]
    · intro pre suf hne hpre
      exact absurd (List.append_eq_nil.mp hpre).1 hne
  | cons s rest ih =>
    intro path ch ch2 h
    have hmain : ∀ (p2 : String) (sub : List (String × APIEntry)),
        addRouteGo f leafName p2 [] rest = some sub ∨
          (∃ chm, lookupChild ch s = some (APIEntry.mod p2 chm) ∧
            addRouteGo f leafName p2 chm rest = some sub) →
        ch2 = setChild ch s (APIEntry.mod p2 sub) →
        findEntry ch2 ((s :: rest) ++ [leafName]) = some (APIEntry.fn f) ∧
        ∀ pre suf, pre ≠ [] → pre ++ suf = s :: rest →
          ∃ p3 c3, findEntry ch2 pre = some (APIEntry.mod p3 c3) := by
      intro p2 sub hsub hch2
      have hrec : findEntry sub (rest ++ [leafName]) = some (APIEntry.fn f) ∧
          ∀ pre suf, pre ≠ [] → pre ++ suf = rest →
            ∃ p3 c3, findEntry sub pre = some (APIEntry.mod p3 c3) := by
        rcases hsub with h1 | ⟨chm, _, h2⟩
        · exact ih p2 [] sub h1
        · exact ih p2 chm sub h2
      subst hch2
      constructor
      · rw [List.cons_append, findEntry_cons _ _ _ (by simp)]
        simp [lookupChild_setChild_self, hrec.1]
      · intro pre suf hne hpre
        cases pre with
        | nil => exact absurd rfl hne
        | cons p0 pre2 =>
          have hp0 : p0 = s := by
            have := congrArg (fun l => l.head?) hpre
            simpa using this
          subst hp0
          have htail : pre2 ++ suf = rest := by
            simpa using congrArg List.tail hpre
          cases pre2 with
          | nil =>
            exact ⟨p2, sub, by simp [findEntry, lookupChild_setChild_self]⟩
          | cons q pre3 =>
            obtain ⟨p3, c3, hfind⟩ := hrec.2 (q :: pre3) suf (by simp) htail
            refine ⟨p3, c3, ?_⟩
            rw [findEntry_cons _ _ _ (by simp)]
            simp [lookupChild_setChild_self, hfind]
    cases hlc : lookupChild ch s with
    | none =>
      cases hsub : addRouteGo f leafName (path ++ "." ++ s) [] rest with
      | none => simp [addRouteGo, hlc, hsub] at h
      | some sub =>
        have h2 : ch2 = setChild ch s (APIEntry.mod (path ++ "." ++ s) sub) := by
          simpa [addRouteGo, hlc, hsub] using h.symm
        exact hmain _ sub (Or.inl hsub) h2
    | some entry =>
      cases entry with
      | mod p2 chm =>
        cases hsub : addRouteGo f leafName p2 chm rest with
        | none => simp [addRouteGo, hlc, hsub] at h
        | some sub =>
          have h2 : ch2 = setChild ch s (APIEntry.mod p2 sub) := by
            simpa [addRouteGo, hlc, hsub] using h.symm
          exact hmain p2 sub (Or.inr ⟨chm, hlc, hsub⟩) h2
      | fn g => simp [addRouteGo, hlc] at h

/-- C6: a successful `_add_route` of an endpoint with dotted module path
`a.b. ... .z` and display name `name` places the endpoint stub at the nested
path made of every segment but the last followed by `name` (the leaf key is
the display name, not the trailing path segment), and every nonempty prefix of
the module chain resolves to a namespace node. -/
theorem add_route_nests_by_module_path (path : String)
    (ch : List (String × APIEntry)) (module_path name : String)
    (f : RemoteFunction) (ch2 : List (String × APIEntry))
    (h : _add_route path ch module_path name f = some ch2) :
    findEntry ch2 (((splitPath module_path).dropLast) ++ [name])
      = some (APIEntry.fn f) ∧
    ∀ pre suf, pre ≠ [] →
      pre ++ suf = (splitPath module_path).dropLast →
      ∃ p3 c3, findEntry ch2 pre = some (APIEntry.mod p3 c3) :=
  addRouteGo_spec f name ((splitPath module_path).dropLast) path ch ch2 h

/-- Witness for C6: routing module path `a.b.c` with display name `n` into an
empty tree, then resolving `a`, `a.b` and the leaf `a.b.n`. -/
theorem add_route_nests_by_module_path_witness :
    findEntry
        [("a", APIEntry.mod ".a"
          [("b", APIEntry.mod ".a.b"
            [("n", APIEntry.fn ⟨0, [], "svc.op", none, SyftVal.vNone, none⟩)])])]
        (((splitPath "a.b.c").dropLast) ++ ["n"])
      = some (APIEntry.fn ⟨0, [], "svc.op", none, SyftVal.vNone, none⟩) ∧
    ∀ pre suf, pre ≠ [] → pre ++ suf = (splitPath "a.b.c").dropLast →
      ∃ p3 c3, findEntry
        [("a", APIEntry.mod ".a"
          [("b", APIEntry.mod ".a.b"
            [("n", APIEntry.fn ⟨0, [], "svc.op", none, SyftVal.vNone, none⟩)])])]
        pre = some (APIEntry.mod p3 c3) :=
  add_route_nests_by_module_path "" [] "a.b.c" "n"
    ⟨0, [], "svc.op", none, SyftVal.vNone, none⟩
    [("a", APIEntry.mod ".a"
      [("b", APIEntry.mod ".a.b"
        [("n", APIEntry.fn ⟨0, [], "svc.op", none, SyftVal.vNone, none⟩)])])]
    rfl

/-- C9: accessing a name that is not a registered submodule or method on a
proxy namespace node yields the dedicated `SyftAttributeError` carrying the
node's path and the requested name and mentioning possible lack of
permission, and that error is distinct from the language's plain
`AttributeError` fault. -/
theorem unknown_member_raises_syft_attribute_error (path : String)
    (ch : List (String × APIEntry)) (name : String)
    (h : lookupChild ch name = none) :
    getattribute path ch name
      = Except.error (PyExc.syftAttributeError (unknownMemberMsg path name)) ∧
    ∀ m, PyExc.syftAttributeError (unknownMemberMsg path name)
      ≠ PyExc.attributeError m := by
  constructor
  · simp [getattribute, h]
  · intro m hcontra
    cases hcontra

/-- Witness for C9 at a concrete node and unregistered member name. -/
theorem unknown_member_raises_syft_attribute_error_witness :
    getattribute ".data" [("upload", APIEntry.mod ".data.upload" [])] "missing"
      = Except.error
          (PyExc.syftAttributeError (unknownMemberMsg ".data" "missing")) ∧
    ∀ m, PyExc.syftAttributeError (unknownMemberMsg ".data" "missing")
      ≠ PyExc.attributeError m :=
  unknown_member_raises_syft_attribute_error ".data"
    [("upload", APIEntry.mod ".data.upload" [])] "missing" rfl

end SyftSpec
